import Mathlib

/-!
# Masjid Fund Collection API — verification of the specification against the code

Shallow embedding of `src/schemas.py` and `src/main.py`.

Modelling conventions:
* Monetary amounts (`float` in the source) are embedded as `ℚ`; the claims under
  study are exact arithmetic identities over the very values the code folds.
* Timestamps (`datetime`) are embedded as `Nat`; only their presence and their
  ordering matter to the code.
* A MongoDB collection is a list of documents in insertion (natural) order;
  `insert_one` appends, `find` scans in order, `find_one` returns the first match.
* In a stored document an `Option` field with value `none` means the key is
  absent from the document (see `create_document` note below).
* Python truthiness of strings matters to the code (`x or y` treats `""` and
  `None` as absent); it is embedded explicitly where the source uses `or`.
* `HTTPException(status, detail)` becomes `ApiResult.httpError status detail`;
  an exception that no handler converts (e.g. a pydantic `ValidationError`
  raised inside a route handler, which FastAPI does not turn into a 422)
  becomes `ApiResult.serverFault`.
-/

namespace MasjidFund

/-- `Frequency = Literal["one_time", "weekly", "monthly", "yearly"]` (schemas.py). -/
inductive Frequency where
  | one_time
  | weekly
  | monthly
  | yearly
deriving DecidableEq, Repr

/-- Validation of a raw string against the `Frequency` literal set. -/
def Frequency.ofString? : String → Option Frequency
  | "one_time" => some .one_time
  | "weekly" => some .weekly
  | "monthly" => some .monthly
  | "yearly" => some .yearly
  | _ => none

/-- `PaymentMode = Literal["direct", "online", "gpay"]` (schemas.py). -/
inductive PaymentMode where
  | direct
  | online
  | gpay
deriving DecidableEq, Repr

/-- Validation of a raw string against the `PaymentMode` literal set. -/
def PaymentMode.ofString? : String → Option PaymentMode
  | "direct" => some .direct
  | "online" => some .online
  | "gpay" => some .gpay
  | _ => none

/-- `Role = Literal["super_admin", "admin", "accountant", "member"]` (schemas.py). -/
inductive Role where
  | super_admin
  | admin
  | accountant
  | member
deriving DecidableEq, Repr

/-- A BSON ObjectId, carried as its 24-character hexadecimal string form. -/
structure ObjectId where
  val : String
deriving DecidableEq, Repr

/-- Hexadecimal digits accepted by `bson.ObjectId`. -/
def isHexChar (c : Char) : Bool :=
  c.isDigit || ('a' ≤ c && c ≤ 'f') || ('A' ≤ c && c ≤ 'F')

/-- `bson.ObjectId(s)` accepts a string exactly when it is 24 hex characters. -/
def isValidObjectId (s : String) : Bool :=
  s.length == 24 && s.data.all isHexChar

/-- `oid` (main.py): parse a path/body identifier; a malformed string raises
`HTTPException(status_code=400, detail="Invalid id")`. -/
def oid (id_str : String) : Except (Nat × String) ObjectId :=
  if isValidObjectId id_str then .ok ⟨id_str⟩ else .error (400, "Invalid id")

/-- The hex character for one digit, as produced by `str(ObjectId)` (lowercase). -/
def hexDigit (k : Nat) : Char :=
  if k < 10 then Char.ofNat (48 + k) else Char.ofNat (87 + k)

/-- `len` low-order base-16 digits of `n`, most significant first. -/
def hexChars : Nat → Nat → List Char
  | 0, _ => []
  | len + 1, n => hexChars len (n / 16) ++ [hexDigit (n % 16)]

/-- The string form of the `n`-th ObjectId generated by the database driver.
Real driver-generated ids are 24 lowercase hex characters; we index them by a
per-state counter. -/
def genId (n : Nat) : String :=
  ⟨hexChars 24 n⟩

/-- Outcome of handling one request. `httpError` is a raised `HTTPException`
(structured client-facing error); `serverFault` is an exception no handler
converts, surfacing as a 500 server error. -/
inductive ApiResult (α : Type) where
  | ok (v : α)
  | httpError (status : Nat) (detail : String)
  | serverFault (detail : String)
deriving DecidableEq, Repr

/-- A stored `user` document (schemas.User plus the id and insertion timestamp).
`roles` is the `masjid_id → role` mapping, stored as an association list. -/
structure UserDoc where
  _id : ObjectId
  mobile : String
  name : Option String := none
  otp : Option String := none
  roles : List (String × Role) := []
  is_super_admin : Bool := false
  created_at : Nat := 0
deriving DecidableEq, Repr

/-- A stored `masjid` document (schemas.Masjid plus id and timestamp). -/
structure MasjidDoc where
  _id : ObjectId
  name : String
  address : Option String := none
  created_by_user_id : Option String := none
  support_whatsapp : Option String := none
  created_at : Nat := 0
deriving DecidableEq, Repr

/-- A stored `project` document (schemas.Project plus id and timestamp). -/
structure ProjectDoc where
  _id : ObjectId
  masjid_id : String
  title : String
  description : Option String := none
  is_public : Bool := true
  landing_slug : Option String := none
  gpay_url : Option String := none
  gpay_upi : Option String := none
  gpay_qr_image : Option String := none
  allowed_frequencies : List Frequency := []
  created_at : Nat := 0
deriving DecidableEq, Repr

/-- A stored `participant` document.  These documents are written only by the
`/projects/join` upsert, which `$set`s the raw `JoinProject` payload without
constructing `schemas.Participant`; hence `frequency` and `preferred_mode` are
raw strings and `pledge_amount` is unconstrained. -/
structure ParticipantDoc where
  _id : ObjectId
  project_id : String
  user_id : String
  pledge_amount : Option ℚ := none
  frequency : Option String := none
  preferred_mode : Option String := none
deriving DecidableEq, Repr

/-- A stored `contribution` document (schemas.Contribution plus id and timestamp). -/
structure ContribDoc where
  _id : ObjectId
  project_id : String
  user_id : Option String := none
  mobile : Option String := none
  name : Option String := none
  amount : ℚ
  mode : PaymentMode
  paid_at : Option Nat := none
  note : Option String := none
  proof_url : Option String := none
  approved : Bool := true
  created_at : Nat := 0
deriving DecidableEq, Repr

/-- A stored `expense` document (schemas.Expense plus id and timestamp). -/
structure ExpenseDoc where
  _id : ObjectId
  masjid_id : String
  project_id : String
  amount : ℚ
  description : String
  spent_at : Option Nat := none
  added_by_user_id : Option String := none
  attachment_url : Option String := none
  created_at : Nat := 0
deriving DecidableEq, Repr

/-- The document store: one collection per entity type, in natural (insertion)
order, plus the driver's id counter and the server clock used for the
injected `created_at` timestamps. -/
structure DBState where
  users : List UserDoc := []
  masjids : List MasjidDoc := []
  projects : List ProjectDoc := []
  participants : List ParticipantDoc := []
  contributions : List ContribDoc := []
  expenses : List ExpenseDoc := []
  nextId : Nat := 0
  now : Nat := 0
deriving DecidableEq, Repr

/-- `update_one(filter, {"$set": …})` on a collection: rewrite the first
document matching the filter (Mongo applies the update to at most one
document) and report the matched count (0 or 1). -/
def updateOne {α : Type} (p : α → Bool) (f : α → α) : List α → List α × Nat
  | [] => ([], 0)
  | x :: xs =>
      if p x then (f x :: xs, 1)
      else
        let r := updateOne p f xs
        (x :: r.1, r.2)

/-- Modelled from the spec: `create_document` lives in `database.py`, which is
not part of `src/`.  Per §4.2 it serializes the validated entity — an optional
field that is absent/`None` is omitted from the stored document — injects a
server-set `created_at` timestamp used for descending-time sorts, inserts the
document, and returns the new record's identifier as a string.  Each
`insert…` function below is that operation at one collection's type; the
state's clock advances so later insertions carry later timestamps. -/
def DBState.bump (s : DBState) : DBState :=
  { s with nextId := s.nextId + 1, now := s.now + 1 }

/-- `create_document("user", user)`; see `DBState.bump` for the modelling note. -/
def insertUser (s : DBState) (mobile : String) (name otp : Option String)
    (roles : List (String × Role)) (is_super_admin : Bool) : DBState × String :=
  let id := genId s.nextId
  ({ s.bump with
      users := s.users ++
        [{ _id := ⟨id⟩, mobile := mobile, name := name, otp := otp,
           roles := roles, is_super_admin := is_super_admin, created_at := s.now }] },
   id)

/-- `create_document("masjid", masjid)`; see `DBState.bump`. -/
def insertMasjid (s : DBState) (name : String)
    (address created_by_user_id support_whatsapp : Option String) : DBState × String :=
  let id := genId s.nextId
  ({ s.bump with
      masjids := s.masjids ++
        [{ _id := ⟨id⟩, name := name, address := address,
           created_by_user_id := created_by_user_id,
           support_whatsapp := support_whatsapp, created_at := s.now }] },
   id)

-- Request bodies (the FastAPI BaseModel classes in main.py).  FastAPI parses
-- the incoming JSON against these shapes; a body that does not fit them is
-- rejected with a 422 before the handler runs, so a handler only ever sees
-- values of these types.

/-- `LoginRequest` (main.py). -/
structure LoginRequest where
  mobile : String
  otp : String
deriving DecidableEq, Repr

/-- `UpdateOtpRequest` (main.py). -/
structure UpdateOtpRequest where
  new_otp : String
deriving DecidableEq, Repr

/-- `CreateMasjid` (main.py). -/
structure CreateMasjid where
  name : String
  address : Option String := none
  support_whatsapp : Option String := none
  owner_user_id : String
deriving DecidableEq, Repr

/-- `CreateProject` (main.py).  Note `allowed_frequencies` is
`Optional[List[str]] = None`: raw strings, defaulting to `None`. -/
structure CreateProject where
  masjid_id : String
  title : String
  description : Option String := none
  is_public : Bool := true
  landing_slug : Option String := none
  gpay_url : Option String := none
  gpay_upi : Option String := none
  gpay_qr_image : Option String := none
  allowed_frequencies : Option (List String) := none
deriving DecidableEq, Repr

/-- `JoinProject` (main.py).  `pledge_amount` has no lower bound and
`frequency`/`preferred_mode` are plain `Optional[str]` here. -/
structure JoinProject where
  project_id : String
  user_id : String
  pledge_amount : Option ℚ := none
  frequency : Option String := none
  preferred_mode : Option String := none
deriving DecidableEq, Repr

/-- `AddContribution` (main.py).  `amount` is a plain `float` and `mode` a
plain `str` at this layer; the constrained model is `schemas.Contribution`. -/
structure AddContribution where
  project_id : String
  user_id : Option String := none
  mobile : Option String := none
  name : Option String := none
  amount : ℚ
  mode : String
  note : Option String := none
  proof_url : Option String := none
  paid_at : Option Nat := none
deriving DecidableEq, Repr

/-- `AddExpense` (main.py). -/
structure AddExpense where
  masjid_id : String
  project_id : String
  amount : ℚ
  description : String
  spent_at : Option Nat := none
  added_by_user_id : Option String := none
  attachment_url : Option String := none
deriving DecidableEq, Repr

-- Validated entity construction (schemas.py pydantic models).  Pydantic
-- validates on construction and raises `ValidationError` on a violated
-- constraint; when a handler constructs one of these from an
-- already-parsed request body, that exception is NOT an `HTTPException`
-- and FastAPI has no handler for it.

/-- `schemas.Participant`: `pledge_amount: Optional[float] = Field(None, ge=0)`,
`frequency: Optional[Frequency]`, `preferred_mode: Optional[PaymentMode]`.
`main.py` imports `Participant` but never constructs it. -/
structure Participant where
  project_id : String
  user_id : String
  pledge_amount : Option ℚ := none
  frequency : Option Frequency := none
  preferred_mode : Option PaymentMode := none
deriving DecidableEq, Repr

/-- Pydantic validation of a raw `JoinProject` payload against
`schemas.Participant` — what the spec says the join endpoint does before
upserting, and what the handler in fact never calls. -/
def Participant.validate (b : JoinProject) : Except String Participant := do
  let pa ← match b.pledge_amount with
    | none => pure none
    | some a =>
        if 0 ≤ a then pure (some a)
        else Except.error "pledge_amount: Input should be greater than or equal to 0"
  let fq ← match b.frequency with
    | none => pure none
    | some f =>
        match Frequency.ofString? f with
        | some fq => pure (some fq)
        | none => Except.error "frequency: Input should be one_time, weekly, monthly or yearly"
  let pm ← match b.preferred_mode with
    | none => pure none
    | some m =>
        match PaymentMode.ofString? m with
        | some pm => pure (some pm)
        | none => Except.error "preferred_mode: Input should be direct, online or gpay"
  pure { project_id := b.project_id, user_id := b.user_id,
         pledge_amount := pa, frequency := fq, preferred_mode := pm }

/-- `schemas.Contribution`: `amount: float = Field(..., gt=0)`,
`mode: PaymentMode`, `approved` defaults to `True`. -/
structure Contribution where
  project_id : String
  user_id : Option String := none
  mobile : Option String := none
  name : Option String := none
  amount : ℚ
  mode : PaymentMode
  paid_at : Option Nat := none
  note : Option String := none
  proof_url : Option String := none
  approved : Bool := true
deriving DecidableEq, Repr

/-- `Contribution(**body.model_dump())`: pydantic validation of the raw
`AddContribution` payload against `schemas.Contribution`. -/
def Contribution.validate (b : AddContribution) : Except String Contribution :=
  if 0 < b.amount then
    match PaymentMode.ofString? b.mode with
    | some m =>
        .ok { project_id := b.project_id, user_id := b.user_id, mobile := b.mobile,
              name := b.name, amount := b.amount, mode := m, paid_at := b.paid_at,
              note := b.note, proof_url := b.proof_url, approved := true }
    | none => .error "mode: Input should be direct, online or gpay"
  else .error "amount: Input should be greater than 0"

/-- `create_document("contribution", c)`; see `DBState.bump`. -/
def insertContribution (s : DBState) (c : Contribution) : DBState × String :=
  let id := genId s.nextId
  ({ s.bump with
      contributions := s.contributions ++
        [{ _id := ⟨id⟩, project_id := c.project_id, user_id := c.user_id,
           mobile := c.mobile, name := c.name, amount := c.amount, mode := c.mode,
           paid_at := c.paid_at, note := c.note, proof_url := c.proof_url,
           approved := c.approved, created_at := s.now }] },
   id)

/-- `schemas.Project`: the validated project entity. -/
structure Project where
  masjid_id : String
  title : String
  description : Option String := none
  is_public : Bool := true
  landing_slug : Option String := none
  gpay_url : Option String := none
  gpay_upi : Option String := none
  gpay_qr_image : Option String := none
  allowed_frequencies : List Frequency
deriving DecidableEq, Repr

/-- The `default_factory` declared on `schemas.Project.allowed_frequencies`:
all four frequency values.  It fires only when the field's key is entirely
absent from the constructor input. -/
def Project.default_allowed_frequencies : List Frequency :=
  [.one_time, .weekly, .monthly, .yearly]

/-- Validation of each raw frequency string against the `Frequency` literal set. -/
def parseFrequencies : List String → Except String (List Frequency)
  | [] => .ok []
  | f :: fs =>
      match Frequency.ofString? f with
      | some fq => (parseFrequencies fs).map fun rest => fq :: rest
      | none => .error "allowed_frequencies: Input should be one_time, weekly, monthly or yearly"

/-- `Project(**body.model_dump())`: `model_dump()` always emits the
`allowed_frequencies` key, so the schema's `default_factory` never fires on
this path, and an explicit `None` fails `List[Frequency]` validation. -/
def Project.validate (b : CreateProject) : Except String Project :=
  match b.allowed_frequencies with
  | none => .error "allowed_frequencies: Input should be a valid list"
  | some fs =>
      (parseFrequencies fs).map fun fqs =>
        { masjid_id := b.masjid_id, title := b.title, description := b.description,
          is_public := b.is_public, landing_slug := b.landing_slug,
          gpay_url := b.gpay_url, gpay_upi := b.gpay_upi,
          gpay_qr_image := b.gpay_qr_image, allowed_frequencies := fqs }

/-- `create_document("project", project)`; see `DBState.bump`. -/
def insertProject (s : DBState) (p : Project) : DBState × String :=
  let id := genId s.nextId
  ({ s.bump with
      projects := s.projects ++
        [{ _id := ⟨id⟩, masjid_id := p.masjid_id, title := p.title,
           description := p.description, is_public := p.is_public,
           landing_slug := p.landing_slug, gpay_url := p.gpay_url,
           gpay_upi := p.gpay_upi, gpay_qr_image := p.gpay_qr_image,
           allowed_frequencies := p.allowed_frequencies, created_at := s.now }] },
   id)

/-- `create_document("expense", e)`; `schemas.Expense` validation
(`amount > 0`) happens in the handler, see `add_expense`. -/
def insertExpense (s : DBState) (b : AddExpense) : DBState × String :=
  let id := genId s.nextId
  ({ s.bump with
      expenses := s.expenses ++
        [{ _id := ⟨id⟩, masjid_id := b.masjid_id, project_id := b.project_id,
           amount := b.amount, description := b.description, spent_at := b.spent_at,
           added_by_user_id := b.added_by_user_id,
           attachment_url := b.attachment_url, created_at := s.now }] },
   id)

/-- The OTP check common to both branches of `login`:
`otp = u.get("otp") or u.get("mobile")`, then compare.  Python `or` treats
`None` and `""` as absent, and `mobile` is always present in a stored user. -/
def loginCheck (u : UserDoc) (req : LoginRequest) : ApiResult UserDoc :=
  let otp := match u.otp with
             | some o => if o = "" then u.mobile else o
             | none => u.mobile
  if req.otp ≠ otp then .httpError 401 "Invalid OTP"
  -- on success the handler renames `_id` to the string field `id` and
  -- returns the record; we return the document itself
  else .ok u

/-- `POST /auth/login` (main.py `login`): look up by mobile; if absent,
auto-provision `User(mobile=req.mobile, otp=req.mobile)` via
`create_document` and re-fetch by `ObjectId(uid)`; then check the OTP. -/
def login (s : DBState) (req : LoginRequest) : DBState × ApiResult UserDoc :=
  match s.users.find? (fun u => decide (u.mobile = req.mobile)) with
  | some u => (s, loginCheck u req)
  | none =>
      let r := insertUser s req.mobile none (some req.mobile) [] false
      -- u = collection("user").find_one({"_id": ObjectId(uid)}); a malformed
      -- uid would make bson raise (escaping as a 500), but generated ids are
      -- always well-formed (`genId_valid`), so that branch is dead
      if isValidObjectId r.2 then
        match r.1.users.find? (fun u => decide (u._id = ObjectId.mk r.2)) with
        | some u => (r.1, loginCheck u req)
        | none => (r.1, .serverFault "NoneType has no attribute get")
      else (r.1, .serverFault "bson InvalidId")

/-- `POST /auth/update-otp/{user_id}` (main.py `update_otp`): parse the path
id with `oid` (raising 400 "Invalid id" on a malformed string), `$set` the
`otp` field on the matching user, and 404 when the update matched nothing. -/
def update_otp (s : DBState) (user_id : String) (body : UpdateOtpRequest) :
    DBState × ApiResult Bool :=
  match oid user_id with
  | .error e => (s, .httpError e.1 e.2)
  | .ok o =>
      let r := updateOne (fun u => decide (u._id = o))
        (fun u => { u with otp := some body.new_otp }) s.users
      if r.2 = 0 then ({ s with users := r.1 }, .httpError 404 "User not found")
      else ({ s with users := r.1 }, .ok true)

/-- `roles.{mid} = "admin"`: a `$set` on one key of the `roles` mapping. -/
def setRole (roles : List (String × Role)) (k : String) (r : Role) :
    List (String × Role) :=
  if roles.any (fun e => decide (e.1 = k)) then
    roles.map (fun e => if e.1 = k then (k, r) else e)
  else roles ++ [(k, r)]

/-- `POST /masjids` (main.py `create_masjid`): build the `Masjid` entity
(construction cannot fail: every field is a plain string or optional string),
insert it, and only AFTERWARDS parse `owner_user_id` with `oid` to grant the
admin role — so the 400 for a malformed owner id is raised after the insert,
and a well-formed owner id matching no user grants nothing yet succeeds. -/
def create_masjid (s : DBState) (b : CreateMasjid) : DBState × ApiResult String :=
  let r := insertMasjid s b.name b.address (some b.owner_user_id) b.support_whatsapp
  match oid b.owner_user_id with
  | .error e => (r.1, .httpError e.1 e.2)
  | .ok o =>
      let r2 := updateOne (fun u => decide (u._id = o))
        (fun u => { u with roles := setRole u.roles r.2 .admin }) r.1.users
      ({ r.1 with users := r2.1 }, .ok r.2)

/-- `POST /projects` (main.py `create_project`): `Project(**body.model_dump())`
then `create_document`.  A failing pydantic construction inside the handler
surfaces as a server fault, not an `HTTPException`. -/
def create_project (s : DBState) (b : CreateProject) : DBState × ApiResult String :=
  match Project.validate b with
  | .error msg => (s, .serverFault msg)
  | .ok p =>
      let r := insertProject s p
      (r.1, .ok r.2)

/-- The upsert filter `{"project_id": body.project_id, "user_id": body.user_id}`. -/
def participantMatches (b : JoinProject) (p : ParticipantDoc) : Bool :=
  decide (p.project_id = b.project_id) && decide (p.user_id = b.user_id)

/-- `POST /projects/join` (main.py `join_project`):
`update_one(filter, {"$set": body.model_dump()}, upsert=True)`.  The `$set`
payload is the full `JoinProject` dump, so an existing record's payload
fields are all overwritten; with no match the upsert inserts a fresh
document (the driver generates its `_id`).  No `schemas.Participant` is ever
constructed, so no pledge/frequency validation happens. -/
def join_project (s : DBState) (b : JoinProject) : DBState × ApiResult Bool :=
  if s.participants.any (participantMatches b) then
    let r := updateOne (participantMatches b)
      (fun p => { p with
          project_id := b.project_id, user_id := b.user_id,
          pledge_amount := b.pledge_amount, frequency := b.frequency,
          preferred_mode := b.preferred_mode }) s.participants
    ({ s with participants := r.1 }, .ok true)
  else
    ({ s.bump with participants := s.participants ++
        [{ _id := ⟨genId s.nextId⟩, project_id := b.project_id,
           user_id := b.user_id, pledge_amount := b.pledge_amount,
           frequency := b.frequency, preferred_mode := b.preferred_mode }] },
     .ok true)

/-- `POST /contributions` (main.py `add_contribution`):
`Contribution(**body.model_dump())` then `create_document`.  A failing
pydantic construction inside the handler surfaces as a server fault. -/
def add_contribution (s : DBState) (body : AddContribution) :
    DBState × ApiResult String :=
  match Contribution.validate body with
  | .error msg => (s, .serverFault msg)
  | .ok c =>
      let r := insertContribution s c
      (r.1, .ok r.2)

/-- `POST /expenses` (main.py `add_expense`): `Expense(**body.model_dump())`
(`amount: float = Field(..., gt=0)`) then `create_document`. -/
def add_expense (s : DBState) (body : AddExpense) : DBState × ApiResult String :=
  if 0 < body.amount then
    let r := insertExpense s body
    (r.1, .ok r.2)
  else (s, .serverFault "amount: Input should be greater than 0")

/-- The `/projects/{project_id}/ledger` response shape. -/
structure Ledger where
  contributed : ℚ
  spent : ℚ
  balance : ℚ
deriving DecidableEq, Repr

/-- `GET /projects/{project_id}/ledger` (main.py `project_ledger`): fold the
amounts of the contributions matching `{"project_id": …, "approved": True}`,
fold the amounts of the expenses matching `{"project_id": …}`, and return
`balance = contributed - spent`. -/
def project_ledger (s : DBState) (project_id : String) : Ledger :=
  let contrib_total :=
    (s.contributions.filter fun c =>
      decide (c.project_id = project_id) && c.approved).foldl
        (fun acc c => acc + c.amount) 0
  let expense_total :=
    (s.expenses.filter fun e => decide (e.project_id = project_id)).foldl
      (fun acc e => acc + e.amount) 0
  { contributed := contrib_total, spent := expense_total,
    balance := contrib_total - expense_total }

/-- Insert one contribution into a list already sorted by `created_at`
descending, after every strictly newer entry (stable). -/
def insertByCreatedDesc (c : ContribDoc) : List ContribDoc → List ContribDoc
  | [] => [c]
  | x :: xs =>
      if x.created_at < c.created_at then c :: x :: xs
      else x :: insertByCreatedDesc c xs

/-- `.sort("created_at", -1)`: the matching documents ordered by their
insertion timestamp, newest first (a stable insertion sort). -/
def sortByCreatedDesc : List ContribDoc → List ContribDoc
  | [] => []
  | c :: cs => insertByCreatedDesc c (sortByCreatedDesc cs)

/-- One entry of the public landing page's `recent_contributions` list. -/
structure DisplayContribution where
  name : String
  amount : ℚ
  paid_at : Nat
deriving DecidableEq, Repr

/-- The `/public/projects/{landing_slug}` success payload. -/
structure PublicProjectView where
  project : ProjectDoc
  recent_contributions : List DisplayContribution
  total : ℚ
deriving DecidableEq, Repr

/-- The display triple built by `public_project` for one contribution:
`{"name": c.get("name") or c.get("mobile", "Guest"), "amount": c.get("amount"),
"paid_at": c.get("paid_at") or c.get("created_at")}`.  Python `or` treats the
empty string like an absent value, so a stored `name = ""` falls through to
the mobile arm; the `"Guest"` default fires only when the mobile key is
absent.  Datetimes are always truthy, so a present `paid_at` always wins. -/
def displayOf (c : ContribDoc) : DisplayContribution :=
  { name := match c.name with
            | some n => if n = "" then c.mobile.getD "Guest" else n
            | none => c.mobile.getD "Guest",
    amount := c.amount,
    paid_at := c.paid_at.getD c.created_at }

/-- `GET /public/projects/{landing_slug}` (main.py `public_project`): find one
project matching `{"landing_slug": …, "is_public": True}` (404 "Project not
found" otherwise — the same response whether the slug is absent or the
project private); then take the 50 most recent approved contributions of
that project (keyed by the project id string, i.e. `str(_id)`), newest
first, summing their amounts, and map each to its display triple. -/
def public_project (s : DBState) (landing_slug : String) :
    ApiResult PublicProjectView :=
  match s.projects.find? (fun p =>
      decide (p.landing_slug = some landing_slug) && p.is_public) with
  | none => .httpError 404 "Project not found"
  | some p =>
      let cs := (sortByCreatedDesc (s.contributions.filter fun c =>
          decide (c.project_id = p._id.val) && c.approved)).take 50
      .ok { project := p,
            recent_contributions := cs.map displayOf,
            total := cs.foldl (fun acc c => acc + c.amount) 0 }

/-- The number of participant records stored for one `(project_id, user_id)`
pair. -/
def pairCount (s : DBState) (pid uid : String) : Nat :=
  (s.participants.filter fun p =>
    decide (p.project_id = pid ∧ p.user_id = uid)).length

-- Concrete fixtures used by the claim witnesses and counterexamples.

/-- A public project with a landing slug. -/
def slugProject : ProjectDoc :=
  { _id := ⟨"aaaaaaaaaaaaaaaaaaaaaaaa"⟩, masjid_id := "m1", title := "Roof",
    is_public := true, landing_slug := some "roof" }

/-- An approved contribution whose `name` key is present but holds `""`. -/
def emptyNameContribution : ContribDoc :=
  { _id := ⟨"bbbbbbbbbbbbbbbbbbbbbbbb"⟩, project_id := "aaaaaaaaaaaaaaaaaaaaaaaa",
    name := some "", amount := 5, mode := .direct, created_at := 3 }

/-- Store holding `slugProject` and `emptyNameContribution`. -/
def emptyNameState : DBState :=
  { projects := [slugProject], contributions := [emptyNameContribution] }

/-- An approved contribution with no name, no mobile and no paid_at. -/
def guestContribution : ContribDoc :=
  { _id := ⟨"cccccccccccccccccccccccc"⟩, project_id := "aaaaaaaaaaaaaaaaaaaaaaaa",
    amount := 7, mode := .direct, created_at := 4 }

/-- Store holding `slugProject` and `guestContribution`. -/
def guestState : DBState :=
  { projects := [slugProject], contributions := [guestContribution] }

/-- The landing view `public_project` produces for `guestState`. -/
def guestView : PublicProjectView :=
  { project := slugProject,
    recent_contributions := [{ name := "Guest", amount := 7, paid_at := 4 }],
    total := 7 }

/-- First join request of the re-join scenario: pledge 100, monthly. -/
def joinFirst : JoinProject :=
  { project_id := "P", user_id := "U",
    pledge_amount := some 100, frequency := some "monthly" }

/-- Second join request of the re-join scenario: pledge 200, weekly. -/
def joinSecond : JoinProject :=
  { project_id := "P", user_id := "U",
    pledge_amount := some 200, frequency := some "weekly" }

/-- A stored user with a well-formed id and a set OTP. -/
def otpUser : UserDoc :=
  { _id := ⟨"aaaaaaaaaaaaaaaaaaaaaaaa"⟩, mobile := "111", otp := some "1111" }

/-- Store holding only `otpUser`. -/
def otpState : DBState :=
  { users := [otpUser] }

/-! ## General lemmas about the embedded database operations -/

theorem foldl_add_map_sum {α : Type} (f : α → ℚ) :
    ∀ (l : List α) (q : ℚ),
      l.foldl (fun acc x => acc + f x) q = q + (l.map f).sum := by
  intro l
  induction l with
  | nil => simp
  | cons x xs ih => intro q; simp [ih, add_assoc]

theorem updateOne_of_forall_not {α : Type} (p : α → Bool) (f : α → α) :
    ∀ l : List α, (∀ x ∈ l, p x = false) → updateOne p f l = (l, 0) := by
  intro l
  induction l with
  | nil => intro _; rfl
  | cons x xs ih =>
      intro h
      have hx : p x = false := h x (by simp)
      have hxs := ih fun y hy => h y (by simp [hy])
      simp [updateOne, hx, hxs]

theorem updateOne_found {α : Type} (p : α → Bool) (f : α → α) :
    ∀ l : List α, l.any p = true →
      (updateOne p f l).2 = 1 ∧
        ∃ x ∈ l, p x = true ∧ f x ∈ (updateOne p f l).1 := by
  intro l
  induction l with
  | nil => simp
  | cons x xs ih =>
      intro h
      by_cases hx : p x = true
      · exact ⟨by simp [updateOne, hx], x, by simp, hx, by simp [updateOne, hx]⟩
      · have hx' : p x = false := by simpa using hx
        have h' : xs.any p = true := by simpa [hx'] using h
        obtain ⟨h1, y, hy, hpy, hfy⟩ := ih h'
        refine ⟨by simp [updateOne, hx', h1], y, by simp [hy], hpy, ?_⟩
        simp only [updateOne, hx', Bool.false_eq_true, if_false]
        exact List.mem_cons_of_mem x hfy

theorem updateOne_upsert_once {α : Type} {R : α → Prop} (P : α → Bool) (f : α → α)
    (hf : ∀ x, P (f x) = true ∧ R (f x)) :
    ∀ l : List α, (l.filter P).length ≤ 1 → l.any P = true →
      ((updateOne P f l).1.filter P).length = 1 ∧
        ∀ y ∈ (updateOne P f l).1, P y = true → R y := by
  intro l
  induction l with
  | nil => simp
  | cons x xs ih =>
      intro hcount hany
      by_cases hx : P x = true
      · have hxs : xs.filter P = [] := by
          have hlen : (List.filter P (x :: xs)).length = (xs.filter P).length + 1 := by
            simp [List.filter_cons, hx]
          exact List.length_eq_zero.mp (by omega)
        refine ⟨by simp [updateOne, hx, List.filter_cons, (hf x).1, hxs], ?_⟩
        intro y hy hPy
        simp only [updateOne, hx, if_true, List.mem_cons] at hy
        rcases hy with rfl | hy
        · exact (hf x).2
        · exact absurd (List.mem_filter.mpr ⟨hy, hPy⟩) (by simp [hxs])
      · have hx' : P x = false := by simpa using hx
        have hcount' : (xs.filter P).length ≤ 1 := by
          simpa [List.filter_cons, hx'] using hcount
        have hany' : xs.any P = true := by simpa [hx'] using hany
        obtain ⟨h1, h2⟩ := ih hcount' hany'
        refine ⟨by simp [updateOne, hx', List.filter_cons, h1], ?_⟩
        intro y hy hPy
        simp only [updateOne, hx', Bool.false_eq_true, if_false, List.mem_cons] at hy
        rcases hy with rfl | hy
        · exact absurd hPy (by simp [hx'])
        · exact h2 y hy hPy

theorem append_upsert_once {α : Type} {R : α → Prop} (P : α → Bool) (d : α)
    (hPd : P d = true) (hRd : R d) :
    ∀ l : List α, l.any P = false →
      (((l ++ [d]).filter P).length = 1 ∧
        ∀ y ∈ l ++ [d], P y = true → R y) := by
  intro l hl
  have hfl : l.filter P = [] := by
    refine List.filter_eq_nil_iff.mpr fun x hx => ?_
    have := (List.any_eq_false.mp hl) x hx
    simpa using this
  constructor
  · simp [List.filter_append, hfl, hPd]
  · intro y hy hPy
    rcases List.mem_append.mp hy with hy | hy
    · exact absurd (List.mem_filter.mpr ⟨hy, hPy⟩) (by simp [hfl])
    · have : y = d := List.mem_singleton.mp hy
      subst this
      exact hRd

theorem mem_insertByCreatedDesc {a c : ContribDoc} :
    ∀ {l : List ContribDoc}, a ∈ insertByCreatedDesc c l ↔ a = c ∨ a ∈ l := by
  intro l
  induction l with
  | nil => simp [insertByCreatedDesc]
  | cons x xs ih =>
      by_cases h : x.created_at < c.created_at
      · simp [insertByCreatedDesc, h]
      · simp [insertByCreatedDesc, h, ih]
        tauto

theorem mem_sortByCreatedDesc {a : ContribDoc} :
    ∀ {l : List ContribDoc}, a ∈ sortByCreatedDesc l ↔ a ∈ l := by
  intro l
  induction l with
  | nil => simp [sortByCreatedDesc]
  | cons x xs ih => simp [sortByCreatedDesc, mem_insertByCreatedDesc, ih]

theorem hexChars_length : ∀ (len n : Nat), (hexChars len n).length = len := by
  intro len
  induction len with
  | zero => intro n; rfl
  | succ k ih => intro n; simp [hexChars, ih]

theorem hexDigit_hex {k : Nat} (h : k < 16) : isHexChar (hexDigit k) = true := by
  interval_cases k <;> decide

theorem hexChars_hex : ∀ (len n : Nat), ∀ c ∈ hexChars len n, isHexChar c = true := by
  intro len
  induction len with
  | zero => simp [hexChars]
  | succ k ih =>
      intro n c hc
      simp only [hexChars, List.mem_append, List.mem_singleton] at hc
      rcases hc with hc | rfl
      · exact ih _ c hc
      · exact hexDigit_hex (Nat.mod_lt n (by norm_num))

theorem participantMatches_eq_pair (b : JoinProject) :
    participantMatches b =
      fun p : ParticipantDoc =>
        decide (p.project_id = b.project_id ∧ p.user_id = b.user_id) := by
  funext p
  by_cases h1 : p.project_id = b.project_id <;>
    by_cases h2 : p.user_id = b.user_id <;>
      simp [participantMatches, h1, h2]

/-- One join request leaves exactly one participant record for its pair, with
the request's payload fields, provided the store held at most one before. -/
theorem join_project_once (s : DBState) (b : JoinProject)
    (hcount : pairCount s b.project_id b.user_id ≤ 1) :
    pairCount (join_project s b).1 b.project_id b.user_id = 1
  ∧ ∀ p ∈ (join_project s b).1.participants,
      p.project_id = b.project_id → p.user_id = b.user_id →
        p.pledge_amount = b.pledge_amount ∧ p.frequency = b.frequency ∧
          p.preferred_mode = b.preferred_mode := by
  suffices h : pairCount (join_project s b).1 b.project_id b.user_id = 1
      ∧ ∀ p ∈ (join_project s b).1.participants, participantMatches b p = true →
          p.pledge_amount = b.pledge_amount ∧ p.frequency = b.frequency ∧
            p.preferred_mode = b.preferred_mode by
    exact ⟨h.1, fun p hp h1 h2 => h.2 p hp (by simp [participantMatches, h1, h2])⟩
  unfold pairCount at hcount ⊢
  rw [← participantMatches_eq_pair b] at hcount ⊢
  by_cases hany : s.participants.any (participantMatches b) = true
  · obtain ⟨hlen, hall⟩ := @updateOne_upsert_once ParticipantDoc
      (fun p => p.pledge_amount = b.pledge_amount ∧ p.frequency = b.frequency ∧
        p.preferred_mode = b.preferred_mode)
      (participantMatches b)
      (fun p => { p with
        project_id := b.project_id, user_id := b.user_id,
        pledge_amount := b.pledge_amount, frequency := b.frequency,
        preferred_mode := b.preferred_mode })
      (fun x => ⟨by simp [participantMatches], by simp⟩)
      s.participants hcount hany
    refine ⟨by simpa [join_project, hany] using hlen, ?_⟩
    intro p hp
    exact hall p (by simpa [join_project, hany] using hp)
  · have hany' : s.participants.any (participantMatches b) = false := by
      simpa using hany
    obtain ⟨hlen, hall⟩ := @append_upsert_once ParticipantDoc
      (fun p => p.pledge_amount = b.pledge_amount ∧ p.frequency = b.frequency ∧
        p.preferred_mode = b.preferred_mode)
      (participantMatches b)
      ({ _id := ⟨genId s.nextId⟩, project_id := b.project_id, user_id := b.user_id,
         pledge_amount := b.pledge_amount, frequency := b.frequency,
         preferred_mode := b.preferred_mode } : ParticipantDoc)
      (by simp [participantMatches]) (by simp)
      s.participants hany'
    refine ⟨by simpa [join_project, hany'] using hlen, ?_⟩
    intro p hp
    exact hall p (by simpa [join_project, hany'] using hp)

/-- Ids generated by the database driver are well-formed ObjectId strings. -/
theorem genId_valid (n : Nat) : isValidObjectId (genId n) = true := by
  have h1 : (genId n).length = 24 := hexChars_length 24 n
  have h2 : ∀ c ∈ (genId n).data, isHexChar c = true := hexChars_hex 24 n
  simp [isValidObjectId, h1, List.all_eq_true]
  exact fun c hc => h2 c hc

/-! ## Claim theorems -/

/-- **C1**: for every project identifier, the ledger endpoint returns
`contributed` equal to the sum of `amount` over all contributions with that
`project_id` and `approved = true` (unapproved contributions excluded),
`spent` equal to the sum of `amount` over all expenses with that
`project_id`, and `balance = contributed - spent`. -/
theorem project_ledger_sums (s : DBState) (pid : String) :
    (project_ledger s pid).contributed =
      ((s.contributions.filter fun c =>
        decide (c.project_id = pid ∧ c.approved = true)).map ContribDoc.amount).sum
  ∧ (project_ledger s pid).spent =
      ((s.expenses.filter fun e =>
        decide (e.project_id = pid)).map ExpenseDoc.amount).sum
  ∧ (project_ledger s pid).balance =
      (project_ledger s pid).contributed - (project_ledger s pid).spent := by
  have hfun : (fun c : ContribDoc => decide (c.project_id = pid) && c.approved) =
      fun c : ContribDoc => decide (c.project_id = pid ∧ c.approved = true) := by
    funext c
    by_cases h : c.project_id = pid <;> cases hc : c.approved <;> simp [h, hc]
  refine ⟨?_, ?_, rfl⟩
  · show (s.contributions.filter fun c =>
        decide (c.project_id = pid) && c.approved).foldl (fun acc c => acc + c.amount) 0 = _
    rw [hfun, foldl_add_map_sum ContribDoc.amount, zero_add]
  · show (s.expenses.filter fun e =>
        decide (e.project_id = pid)).foldl (fun acc e => acc + e.amount) 0 = _
    rw [foldl_add_map_sum ExpenseDoc.amount, zero_add]

/-- **C2**: the claim says an add-contribution request with `amount = 0` or
negative fails with a CLIENT error carrying a validation message.  In the
code, `amount` is only constrained on `schemas.Contribution`, which
`add_contribution` constructs INSIDE the handler (`AddContribution` itself
has a plain `float`), so the pydantic `ValidationError` escapes the handler
as an unhandled server fault (HTTP 500), not a client error.  The
`amount = 0.01` half of the claim does hold: the request succeeds and
returns the new record's identifier. -/
theorem add_contribution_zero_server_fault :
    (add_contribution {} { project_id := "p", amount := 0, mode := "direct" }).2 =
      ApiResult.serverFault "amount: Input should be greater than 0"
  ∧ (add_contribution {} { project_id := "p", amount := -1/2, mode := "direct" }).2 =
      ApiResult.serverFault "amount: Input should be greater than 0"
  ∧ (add_contribution {} { project_id := "p", amount := 1/100, mode := "direct" }).2 =
      ApiResult.ok (genId 0)
  ∧ (add_contribution {} { project_id := "p", amount := 1/100, mode := "direct"
      }).1.contributions.map ContribDoc.amount = [1/100] := by
  have h1 : ¬ (0:ℚ) < -1/2 := by norm_num
  have h2 : (0:ℚ) < 1/100 := by norm_num
  refine ⟨rfl, ?_, ?_, ?_⟩ <;>
    simp [add_contribution, Contribution.validate, h1, h2,
      PaymentMode.ofString?, insertContribution, DBState.bump]

/-- **C3**: the claim says a join-project payload is validated as a
`Participant` before the upsert, rejecting `pledge_amount < 0` and an
unrecognized `frequency`.  In the code, `join_project` `$set`s the raw
`JoinProject` dump without ever constructing `schemas.Participant` (which is
imported but unused), so a payload that `Participant` validation would
reject is accepted with `{"ok": true}` and persisted verbatim. -/
theorem join_project_skips_validation :
    Participant.validate
        { project_id := "p", user_id := "u",
          pledge_amount := some (-5), frequency := some "daily" } =
      .error "pledge_amount: Input should be greater than or equal to 0"
  ∧ (join_project {}
        { project_id := "p", user_id := "u",
          pledge_amount := some (-5), frequency := some "daily" }).2 =
      ApiResult.ok true
  ∧ (join_project {}
        { project_id := "p", user_id := "u",
          pledge_amount := some (-5), frequency := some "daily" }).1.participants =
      [{ _id := ⟨genId 0⟩, project_id := "p", user_id := "u",
         pledge_amount := some (-5), frequency := some "daily",
         preferred_mode := none }] := by
  refine ⟨rfl, rfl, rfl⟩

/-- **C4**: the claim says a create-project request omitting
`allowed_frequencies` succeeds with the default list of all four
frequencies.  In the code, `CreateProject.allowed_frequencies` defaults to
`None` and `Project(**body.model_dump())` always passes the key, so the
schema's `default_factory` (which is indeed all four values) never fires;
the explicit `None` fails `List[Frequency]` validation inside the handler
and the request dies with an unhandled server fault, persisting nothing. -/
theorem create_project_omitted_frequencies_fault :
    (create_project {} { masjid_id := "m", title := "T" }).2 =
      ApiResult.serverFault "allowed_frequencies: Input should be a valid list"
  ∧ (create_project {} { masjid_id := "m", title := "T" }).1.projects = []
  ∧ Project.default_allowed_frequencies =
      [Frequency.one_time, Frequency.weekly, Frequency.monthly, Frequency.yearly] := by
  refine ⟨rfl, rfl, rfl⟩

/-- **C5 counterexample**: the claim says the display `name` equals the
contribution's `name` whenever it is present.  A stored `name = ""` is
present, yet `c.get("name") or c.get("mobile", "Guest")` treats the empty
string as falsy, so the entry displays `"Guest"`, not `""`. -/
theorem public_project_empty_name_counterexample :
    emptyNameContribution.name = some ""
  ∧ public_project emptyNameState "roof" =
      ApiResult.ok
        { project := slugProject,
          recent_contributions := [{ name := "Guest", amount := 5, paid_at := 3 }],
          total := 5 }
  ∧ ("Guest" : String) ≠ "" := by
  refine ⟨rfl, ?_, by decide⟩
  have h5 : (0:ℚ) + 5 = 5 := by norm_num
  simp [public_project, emptyNameState, slugProject, emptyNameContribution,
    sortByCreatedDesc, insertByCreatedDesc, displayOf, h5]

/-- **C5 (amended)**: every entry of the public landing page's
`recent_contributions` comes from an approved contribution of the displayed
project, with `amount` copied, `paid_at` equal to the contribution's
`paid_at` when supplied and to its creation timestamp otherwise, and a
display name that equals the contribution's `name` when that is present and
non-empty, and otherwise the contribution's `mobile` value when the mobile
key is present, and `"Guest"` when it is absent (a present-but-empty `name`
falls through to the mobile arm because the code's `or`-chain treats `""`
as absent). -/
theorem public_project_display_fallbacks (s : DBState) (slug : String)
    (v : PublicProjectView) (hv : public_project s slug = ApiResult.ok v)
    (e : DisplayContribution) (he : e ∈ v.recent_contributions) :
    ∃ c ∈ s.contributions,
      c.approved = true ∧ c.project_id = v.project._id.val ∧
      e.amount = c.amount ∧
      (∀ t, c.paid_at = some t → e.paid_at = t) ∧
      (c.paid_at = none → e.paid_at = c.created_at) ∧
      (∀ n, c.name = some n → n ≠ "" → e.name = n) ∧
      ((c.name = none ∨ c.name = some "") →
        ((c.mobile = none → e.name = "Guest") ∧
          ∀ m, c.mobile = some m → e.name = m)) := by
  rcases hfind : s.projects.find? (fun p =>
      decide (p.landing_slug = some slug) && p.is_public) with _ | p
  · simp [public_project, hfind] at hv
  · simp only [public_project, hfind, ApiResult.ok.injEq] at hv
    subst hv
    simp only [List.mem_map] at he
    obtain ⟨c, hc_take, rfl⟩ := he
    have hc_sort : c ∈ sortByCreatedDesc (s.contributions.filter fun c =>
        decide (c.project_id = p._id.val) && c.approved) :=
      List.take_subset _ _ hc_take
    have hc_filter := mem_sortByCreatedDesc.mp hc_sort
    obtain ⟨hc_mem, hq⟩ := List.mem_filter.mp hc_filter
    have hproj : c.project_id = p._id.val := by
      have := Bool.and_elim_left hq
      simpa using this
    have happr : c.approved = true := Bool.and_elim_right hq
    refine ⟨c, hc_mem, happr, hproj, rfl, ?_, ?_, ?_, ?_⟩
    · intro t ht; simp [displayOf, ht]
    · intro ht; simp [displayOf, ht]
    · intro n hn hne; simp [displayOf, hn, hne]
    · rintro (hn | hn) <;>
        exact ⟨fun hm => by simp [displayOf, hn, hm],
               fun m hm => by simp [displayOf, hn, hm]⟩

/-- **C5 (amended) witness**: with one approved contribution that has no
name, no mobile and no paid_at, the single landing entry displays
`"Guest"` and the creation timestamp. -/
theorem public_project_display_fallbacks_witness :
    ∃ c ∈ guestState.contributions,
      c.approved = true ∧ c.project_id = guestView.project._id.val ∧
      (DisplayContribution.mk "Guest" 7 4).amount = c.amount ∧
      (∀ t, c.paid_at = some t → (DisplayContribution.mk "Guest" 7 4).paid_at = t) ∧
      (c.paid_at = none → (DisplayContribution.mk "Guest" 7 4).paid_at = c.created_at) ∧
      (∀ n, c.name = some n → n ≠ "" → (DisplayContribution.mk "Guest" 7 4).name = n) ∧
      ((c.name = none ∨ c.name = some "") →
        ((c.mobile = none → (DisplayContribution.mk "Guest" 7 4).name = "Guest") ∧
          ∀ m, c.mobile = some m → (DisplayContribution.mk "Guest" 7 4).name = m)) := by
  refine public_project_display_fallbacks guestState "roof" guestView ?_
    (DisplayContribution.mk "Guest" 7 4) (by simp [guestView])
  have h7 : (0:ℚ) + 7 = 7 := by norm_num
  simp [public_project, guestState, slugProject, guestContribution, guestView,
    sortByCreatedDesc, insertByCreatedDesc, displayOf, h7]

/-- **C6**: the public landing endpoint returns data exactly when some
project has the given `landing_slug` and `is_public = true`; when none does
— whether the slug is unknown or its project is private — the response is
the very same 404 "Project not found" error. -/
theorem public_project_privacy (s : DBState) (slug : String) :
    ((∃ p ∈ s.projects, p.landing_slug = some slug ∧ p.is_public = true) ↔
      ∃ v, public_project s slug = ApiResult.ok v)
  ∧ ((∀ p ∈ s.projects, ¬(p.landing_slug = some slug ∧ p.is_public = true)) →
      public_project s slug = ApiResult.httpError 404 "Project not found") := by
  constructor
  · constructor
    · rintro ⟨p, hp, h1, h2⟩
      have hsome : (s.projects.find? (fun p =>
          decide (p.landing_slug = some slug) && p.is_public)).isSome := by
        rw [List.find?_isSome]
        exact ⟨p, hp, by simp [h1, h2]⟩
      obtain ⟨q, hq⟩ := Option.isSome_iff_exists.mp hsome
      exact ⟨_, by unfold public_project; rw [hq]⟩
    · rintro ⟨v, hv⟩
      rcases hfind : s.projects.find? (fun p =>
          decide (p.landing_slug = some slug) && p.is_public) with _ | q
      · simp [public_project, hfind] at hv
      · have hq := List.find?_some hfind
        have hmem := List.mem_of_find?_eq_some hfind
        refine ⟨q, hmem, ?_, ?_⟩
        · have := Bool.and_elim_left hq
          simpa using this
        · exact Bool.and_elim_right hq
  · intro h
    have hnone : s.projects.find? (fun p =>
        decide (p.landing_slug = some slug) && p.is_public) = none := by
      rw [List.find?_eq_none]
      intro p hp
      have := h p hp
      simp only [Bool.and_eq_true, decide_eq_true_eq]
      rintro ⟨h1, h2⟩
      exact this ⟨h1, h2⟩
    simp [public_project, hnone]

/-- **C6 witness**: a private project with slug "roof" and an empty store
produce the identical 404 response. -/
theorem public_project_privacy_witness :
    public_project { projects := [{ slugProject with is_public := false }] } "roof" =
      ApiResult.httpError 404 "Project not found"
  ∧ public_project {} "roof" = ApiResult.httpError 404 "Project not found" := by
  constructor
  · exact (public_project_privacy
      { projects := [{ slugProject with is_public := false }] } "roof").2
      (by intro p hp; simp [slugProject] at hp; simp [hp])
  · exact (public_project_privacy {} "roof").2 (by intro p hp; simp at hp)

/-- **C7**: two successive join-project requests for the same
`(project_id, user_id)` pair leave exactly one participant record for the
pair, and its `pledge_amount`, `frequency` and `preferred_mode` are the
second request's values — a full overwrite, not a merge.  (The store is
assumed to hold at most one record for the pair beforehand, the invariant
every reachable store satisfies since the upsert is the only writer.) -/
theorem join_twice_full_overwrite (s : DBState) (b1 b2 : JoinProject)
    (hp : b1.project_id = b2.project_id) (hu : b1.user_id = b2.user_id)
    (hcount : pairCount s b2.project_id b2.user_id ≤ 1) :
    pairCount (join_project (join_project s b1).1 b2).1 b2.project_id b2.user_id = 1
  ∧ ∀ p ∈ (join_project (join_project s b1).1 b2).1.participants,
      p.project_id = b2.project_id → p.user_id = b2.user_id →
        p.pledge_amount = b2.pledge_amount ∧ p.frequency = b2.frequency ∧
          p.preferred_mode = b2.preferred_mode := by
  have h1 := join_project_once s b1 (by rw [hp, hu]; exact hcount)
  refine join_project_once (join_project s b1).1 b2 ?_
  have := h1.1
  rw [hp, hu] at this
  omega

/-- **C7 witness**: joining with pledge 100/monthly then pledge 200/weekly
leaves one record for ("P","U") carrying the second payload. -/
theorem join_twice_full_overwrite_witness :
    pairCount (join_project (join_project {} joinFirst).1 joinSecond).1 "P" "U" = 1
  ∧ ∀ p ∈ (join_project (join_project {} joinFirst).1 joinSecond).1.participants,
      p.project_id = "P" → p.user_id = "U" →
        p.pledge_amount = some 200 ∧ p.frequency = some "weekly" ∧
          p.preferred_mode = none := by
  exact join_twice_full_overwrite {} joinFirst joinSecond rfl rfl (by decide)

/-- **C8**: update-OTP fails with the 400 client error "Invalid id" on a
malformed user id (leaving the store untouched), fails with a 404 when the
well-formed id matches no user, and otherwise succeeds, setting the matched
user's `otp` to the new value. -/
theorem update_otp_spec (s : DBState) (user_id : String) (b : UpdateOtpRequest) :
    (isValidObjectId user_id = false →
      update_otp s user_id b = (s, ApiResult.httpError 400 "Invalid id"))
  ∧ (isValidObjectId user_id = true →
      (∀ u ∈ s.users, u._id ≠ ObjectId.mk user_id) →
      update_otp s user_id b = (s, ApiResult.httpError 404 "User not found"))
  ∧ (isValidObjectId user_id = true →
      (∃ u ∈ s.users, u._id = ObjectId.mk user_id) →
      (update_otp s user_id b).2 = ApiResult.ok true
      ∧ ∃ u ∈ (update_otp s user_id b).1.users,
          u._id = ObjectId.mk user_id ∧ u.otp = some b.new_otp) := by
  refine ⟨?_, ?_, ?_⟩
  · intro h
    simp [update_otp, oid, h]
  · intro hvalid hnone
    have hupd := updateOne_of_forall_not
      (fun u : UserDoc => decide (u._id = ObjectId.mk user_id))
      (fun u => { u with otp := some b.new_otp }) s.users
      (fun u hu => by simpa using hnone u hu)
    simp [update_otp, oid, hvalid, hupd]
  · rintro hvalid ⟨u, hu, hid⟩
    have hany : s.users.any (fun u => decide (u._id = ObjectId.mk user_id)) = true :=
      List.any_eq_true.mpr ⟨u, hu, by simp [hid]⟩
    obtain ⟨hm, x, hx, hpx, hfx⟩ := updateOne_found
      (fun u : UserDoc => decide (u._id = ObjectId.mk user_id))
      (fun u => { u with otp := some b.new_otp }) s.users hany
    refine ⟨by simp [update_otp, oid, hvalid, hm], ?_⟩
    refine ⟨{ x with otp := some b.new_otp }, ?_, by simpa using hpx, rfl⟩
    simpa [update_otp, oid, hvalid, hm] using hfx

/-- **C8 witness**: "zz" yields the 400 "Invalid id" with the store intact;
a well-formed id over an empty store yields the 404; updating `otpUser`
succeeds and stores the new OTP. -/
theorem update_otp_spec_witness :
    update_otp {} "zz" ⟨"2222"⟩ = ({}, ApiResult.httpError 400 "Invalid id")
  ∧ update_otp {} "aaaaaaaaaaaaaaaaaaaaaaaa" ⟨"2222"⟩ =
      ({}, ApiResult.httpError 404 "User not found")
  ∧ ((update_otp otpState "aaaaaaaaaaaaaaaaaaaaaaaa" ⟨"2222"⟩).2 = ApiResult.ok true
      ∧ ∃ u ∈ (update_otp otpState "aaaaaaaaaaaaaaaaaaaaaaaa" ⟨"2222"⟩).1.users,
          u._id = ObjectId.mk "aaaaaaaaaaaaaaaaaaaaaaaa" ∧ u.otp = some "2222") := by
  refine ⟨(update_otp_spec {} "zz" ⟨"2222"⟩).1 (by decide),
    (update_otp_spec {} "aaaaaaaaaaaaaaaaaaaaaaaa" ⟨"2222"⟩).2.1 (by decide) (by decide),
    (update_otp_spec otpState "aaaaaaaaaaaaaaaaaaaaaaaa" ⟨"2222"⟩).2.2 (by decide)
      ⟨otpUser, by simp [otpState], rfl⟩⟩

/-- **C9**: a login whose mobile matches no stored user and whose OTP
differs from that mobile still auto-provisions the user — the store gains a
record with `otp = mobile` — and only then fails with the 401 "Invalid
OTP".  (`hfresh` states the driver-generated id is new, which is always
true of real ObjectIds.) -/
theorem login_persists_then_rejects (s : DBState) (req : LoginRequest)
    (hmob : ∀ u ∈ s.users, u.mobile ≠ req.mobile)
    (hotp : req.otp ≠ req.mobile)
    (hfresh : ∀ u ∈ s.users, u._id ≠ ObjectId.mk (genId s.nextId)) :
    (login s req).2 = ApiResult.httpError 401 "Invalid OTP"
  ∧ (login s req).1.users.length = s.users.length + 1
  ∧ ∃ u ∈ (login s req).1.users, u.mobile = req.mobile ∧ u.otp = some req.mobile := by
  have hfind : s.users.find? (fun u => decide (u.mobile = req.mobile)) = none :=
    List.find?_eq_none.mpr fun u hu => by simpa using hmob u hu
  have hvalid := genId_valid s.nextId
  have hfind1 : s.users.find?
      (fun u => decide (u._id = ObjectId.mk (genId s.nextId))) = none :=
    List.find?_eq_none.mpr fun u hu => by simpa using hfresh u hu
  have hcheck : ∀ u : UserDoc, u.mobile = req.mobile → u.otp = some req.mobile →
      loginCheck u req = ApiResult.httpError 401 "Invalid OTP" := by
    intro u hm ho
    by_cases he : req.mobile = ""
    · have h' : req.otp ≠ "" := he ▸ hotp
      simp [loginCheck, hm, ho, he, h']
    · simp [loginCheck, hm, ho, he, hotp]
  have hc := hcheck
    { _id := ⟨genId s.nextId⟩, mobile := req.mobile, name := none,
      otp := some req.mobile, roles := [], is_super_admin := false,
      created_at := s.now } rfl rfl
  refine ⟨?_, ?_, ?_⟩
  · simp [login, hfind, insertUser, DBState.bump, hvalid, List.find?_append, hfind1, hc]
  · simp [login, hfind, insertUser, DBState.bump, hvalid, List.find?_append, hfind1]
  · refine ⟨
      { _id := ⟨genId s.nextId⟩, mobile := req.mobile, name := none,
        otp := some req.mobile, roles := [], is_super_admin := false,
        created_at := s.now }, ?_, rfl, rfl⟩
    simp [login, hfind, insertUser, DBState.bump, hvalid, List.find?_append, hfind1]

/-- **C9 witness**: logging in as the unknown mobile "123" with OTP "999"
returns the 401 yet leaves a provisioned user with `otp = "123"`. -/
theorem login_persists_then_rejects_witness :
    (login {} { mobile := "123", otp := "999" }).2 =
      ApiResult.httpError 401 "Invalid OTP"
  ∧ (login {} { mobile := "123", otp := "999" }).1.users.length = 1
  ∧ ∃ u ∈ (login {} { mobile := "123", otp := "999" }).1.users,
      u.mobile = "123" ∧ u.otp = some "123" := by
  have h := login_persists_then_rejects {} { mobile := "123", otp := "999" }
    (by decide) (by decide) (by decide)
  exact ⟨h.1, h.2.1, h.2.2⟩

/-- **C10**: create-masjid inserts the masjid document BEFORE parsing
`owner_user_id`: a malformed owner id gets the 400 "Invalid id" yet the
masjid is persisted; a well-formed owner id matching no user succeeds,
returns the new masjid id, and changes no user's roles. -/
theorem create_masjid_inserts_before_role_grant (s : DBState) (b : CreateMasjid) :
    (isValidObjectId b.owner_user_id = false →
      (create_masjid s b).2 = ApiResult.httpError 400 "Invalid id"
      ∧ ∃ m ∈ (create_masjid s b).1.masjids,
          m.name = b.name ∧ m.created_by_user_id = some b.owner_user_id)
  ∧ (isValidObjectId b.owner_user_id = true →
      (∀ u ∈ s.users, u._id ≠ ObjectId.mk b.owner_user_id) →
      (create_masjid s b).2 = ApiResult.ok (genId s.nextId)
      ∧ (create_masjid s b).1.users = s.users
      ∧ ∃ m ∈ (create_masjid s b).1.masjids, m.name = b.name) := by
  constructor
  · intro h
    refine ⟨by simp [create_masjid, insertMasjid, oid, h], ?_⟩
    refine ⟨
      { _id := ⟨genId s.nextId⟩, name := b.name, address := b.address,
        created_by_user_id := some b.owner_user_id,
        support_whatsapp := b.support_whatsapp, created_at := s.now }, ?_, rfl, rfl⟩
    simp [create_masjid, insertMasjid, oid, h, DBState.bump]
  · intro hvalid hnone
    have hupd := updateOne_of_forall_not
      (fun u : UserDoc => decide (u._id = ObjectId.mk b.owner_user_id))
      (fun u => { u with roles := setRole u.roles (genId s.nextId) .admin })
      s.users (fun u hu => by simpa using hnone u hu)
    refine ⟨by simp [create_masjid, insertMasjid, oid, hvalid], ?_, ?_⟩
    · simp [create_masjid, insertMasjid, oid, hvalid, DBState.bump, hupd]
    · refine ⟨
        { _id := ⟨genId s.nextId⟩, name := b.name, address := b.address,
          created_by_user_id := some b.owner_user_id,
          support_whatsapp := b.support_whatsapp, created_at := s.now }, ?_, rfl⟩
      simp [create_masjid, insertMasjid, oid, hvalid, DBState.bump]

/-- **C10 witness**: owner id "bad" gives the 400 with the masjid stored;
a well-formed owner id over an empty store succeeds touching no user. -/
theorem create_masjid_inserts_before_role_grant_witness :
    (create_masjid {} { name := "M", owner_user_id := "bad" }).2 =
      ApiResult.httpError 400 "Invalid id"
  ∧ (∃ m ∈ (create_masjid {} { name := "M", owner_user_id := "bad" }).1.masjids,
      m.name = "M" ∧ m.created_by_user_id = some "bad")
  ∧ (create_masjid {}
      { name := "M", owner_user_id := "aaaaaaaaaaaaaaaaaaaaaaaa" }).2 =
      ApiResult.ok (genId 0)
  ∧ (create_masjid {}
      { name := "M", owner_user_id := "aaaaaaaaaaaaaaaaaaaaaaaa" }).1.users = [] := by
  obtain ⟨h1, h2⟩ := (create_masjid_inserts_before_role_grant {}
    { name := "M", owner_user_id := "bad" }).1 (by decide)
  obtain ⟨h3, h4, -⟩ := (create_masjid_inserts_before_role_grant {}
    { name := "M", owner_user_id := "aaaaaaaaaaaaaaaaaaaaaaaa" }).2
    (by decide) (by decide)
  exact ⟨h1, h2, h3, h4⟩

end MasjidFund
